import Mathlib

/-!
Shallow embedding of the certificate-store and upload logic of
RedCiudadana/Verificador-de-Certificados-v2.

The store (`useCertificateStore`) holds four ordered containers — templates,
recipients, certificates, collections — plus `currentTemplateId`.  Each store
action performs a single atomic replace of the affected containers, so every
action is embedded as a pure function `CertificateStore → CertificateStore`
(with the values produced by the environment — `nanoid()`, the window origin,
`new Date()` — passed in as explicit parameters).  Asynchronous remote work
never calls `set`, so it is embedded as a data description of the remote
pipeline consumed by an interpreter over externally chosen outcomes.
-/

namespace Verificador

/-- A field of a certificate template (`Field` in the source's types).
Coordinates and font sizes are JS numbers used only as opaque payload here. -/
structure TemplateField where
  id : String
  name : String
  type : String
  x : Int
  y : Int
  fontSize : Option Int
  fontFamily : Option String
  color : Option String
  defaultValue : Option String
deriving DecidableEq

/-- A certificate template: identifier, display name, background image, fields. -/
structure Template where
  id : String
  name : String
  imageUrl : String
  fields : List TemplateField
deriving DecidableEq

/-- A recipient.  `customFields` is a JS string-keyed object, embedded as an
ordered association list. -/
structure Recipient where
  id : String
  name : String
  email : Option String
  course : Option String
  customFields : List (String × String)
  issueDate : String
deriving DecidableEq

/-- An issued certificate record as stored in the local containers. -/
structure Certificate where
  id : String
  recipientId : String
  templateId : String
  qrCodeUrl : String
  issueDate : String
  verificationUrl : String
  status : String
deriving DecidableEq

/-- A named grouping holding embedded copies of member certificates. -/
structure CertificateCollection where
  id : String
  name : String
  description : Option String
  templateId : String
  certificates : List Certificate
  createdAt : String
deriving DecidableEq

/-- The row shape sent to the hosted database (`DatabaseCertificate`). -/
structure DatabaseCertificate where
  certificate_code : String
  recipient_name : String
  recipient_email : String
  recipient_id : Option String
  course_name : String
  template_id : String
  issue_date : String
  qr_code_data : String
  status : String
deriving DecidableEq

/-- The whole store state held by `useCertificateStore`. -/
structure CertificateStore where
  templates : List Template
  recipients : List Recipient
  certificates : List Certificate
  collections : List CertificateCollection
  currentTemplateId : Option String
deriving DecidableEq

/-- The store state with all containers empty (the shape set by `clearAllData`). -/
def emptyStore : CertificateStore :=
  { templates := [], recipients := [], certificates := [], collections := [],
    currentTemplateId := none }

/-- JS `x || null` on a possibly-absent string: both absence and the empty
string are falsy, so they map to `null`. -/
def jsStringOrNull : Option String → Option String
  | some s => if s = "" then none else some s
  | none => none

/-- JS `x || d` on a possibly-absent string with a string fallback: absence and
the empty string both select the fallback. -/
def jsStringOr (o : Option String) (d : String) : String :=
  match o with
  | some s => if s = "" then d else s
  | none => d

/-- Payload of `updateTemplate` (`Omit<Template, 'id'>`). -/
structure TemplatePayload where
  name : String
  imageUrl : String
  fields : List TemplateField
deriving DecidableEq

/-- Payload of `updateRecipient` (`Omit<Recipient, 'id'>`). -/
structure RecipientPayload where
  name : String
  email : Option String
  course : Option String
  customFields : List (String × String)
  issueDate : String
deriving DecidableEq

/-- Payload of `updateCertificate` (`Partial<Certificate>`): every key may be
absent; present keys override on spread. -/
structure CertificateUpdates where
  id : Option String
  recipientId : Option String
  templateId : Option String
  qrCodeUrl : Option String
  issueDate : Option String
  verificationUrl : Option String
  status : Option String
deriving DecidableEq

/-- Store action `updateTemplate(id, template)`: map each stored template, replacing a
match by the payload spread plus the original id. -/
def updateTemplate (id : String) (template : TemplatePayload)
    (s : CertificateStore) : CertificateStore :=
  { s with templates := s.templates.map fun t =>
      if t.id = id then
        { id := id, name := template.name, imageUrl := template.imageUrl,
          fields := template.fields }
      else t }

/-- Store action `deleteTemplate(id)`: drop matching templates; if the current template was
deleted, fall back to the first template with a different id (JS `|| null`). -/
def deleteTemplate (id : String) (s : CertificateStore) : CertificateStore :=
  { s with
    templates := s.templates.filter fun t => t.id != id,
    currentTemplateId :=
      if s.currentTemplateId = some id then
        jsStringOrNull ((s.templates.find? fun t => t.id != id).map Template.id)
      else s.currentTemplateId }

/-- Store action `updateRecipient(id, recipient)`: replace a matching recipient by the
payload spread plus the original id. -/
def updateRecipient (id : String) (recipient : RecipientPayload)
    (s : CertificateStore) : CertificateStore :=
  { s with recipients := s.recipients.map fun r =>
      if r.id = id then
        { id := id, name := recipient.name, email := recipient.email,
          course := recipient.course, customFields := recipient.customFields,
          issueDate := recipient.issueDate }
      else r }

/-- Store action `deleteRecipient(id)`: drop the matching recipients and every certificate
whose `recipientId` matches. -/
def deleteRecipient (id : String) (s : CertificateStore) : CertificateStore :=
  { s with
    recipients := s.recipients.filter fun r => r.id != id,
    certificates := s.certificates.filter fun c => c.recipientId != id }

/-- JS object spread `{...c, ...updates}` for `Partial<Certificate>` updates. -/
def spreadCertificate (c : Certificate) (u : CertificateUpdates) : Certificate :=
  { id := u.id.getD c.id,
    recipientId := u.recipientId.getD c.recipientId,
    templateId := u.templateId.getD c.templateId,
    qrCodeUrl := u.qrCodeUrl.getD c.qrCodeUrl,
    issueDate := u.issueDate.getD c.issueDate,
    verificationUrl := u.verificationUrl.getD c.verificationUrl,
    status := u.status.getD c.status }

/-- Store action `updateCertificate(id, updates)`: merge the partial updates into a
matching certificate. -/
def updateCertificate (id : String) (updates : CertificateUpdates)
    (s : CertificateStore) : CertificateStore :=
  { s with certificates := s.certificates.map fun c =>
      if c.id = id then spreadCertificate c updates else c }

/-- The certificate record built by `generateCertificate` and
`generateBulkCertificates`: verification URL derived from the origin and the
fresh id, QR payload equal to it, status `"published"`. -/
def mkCertificateRecord (id recipientId templateId origin nowIso : String) :
    Certificate :=
  { id := id, recipientId := recipientId, templateId := templateId,
    qrCodeUrl := origin ++ "/verify/" ++ id,
    issueDate := nowIso,
    verificationUrl := origin ++ "/verify/" ++ id,
    status := "published" }

/-- The database row built for a certificate before the remote insert. -/
def buildDbCertificate (certId verificationUrl : String)
    (recipient : Recipient) (template : Template)
    (templateId nowDate : String) : DatabaseCertificate :=
  { certificate_code := certId,
    recipient_name := recipient.name,
    recipient_email := recipient.email.getD "",
    recipient_id := jsStringOrNull (recipient.customFields.lookup "studentId"),
    course_name := jsStringOr recipient.course template.name,
    template_id := templateId,
    issue_date := nowDate,
    qr_code_data := verificationUrl,
    status := "active" }

/-- Outcome of the fire-and-forget remote pipeline of a single issuance:
whether the database insert resolves, and whether the PDF
generate/upload/update chain resolves. -/
structure RemoteOutcome where
  insertOk : Bool
  pdfOk : Bool
deriving DecidableEq

/-- Observable events emitted by the remote pipeline. -/
inductive RemoteEvent
  | insertCertificate (row : DatabaseCertificate)
  | uploadPdf (certId : String)
  | updatePdfUrl (certId : String)
  | alertShown
deriving DecidableEq

/-- Store action `generateCertificate(recipientId, templateId)`: allocate the id, append
the certificate locally, then describe the remote pipeline (present only when
both the recipient and the template are found).  Returns the id, the new local
state, and the remote-pipeline description. -/
def generateCertificate (newId origin nowIso nowDate : String)
    (recipientId templateId : String) (s : CertificateStore) :
    String × CertificateStore × Option DatabaseCertificate :=
  let verificationUrl := origin ++ "/verify/" ++ newId
  let certificate := mkCertificateRecord newId recipientId templateId origin nowIso
  let s' := { s with certificates := s.certificates ++ [certificate] }
  let recipient := s'.recipients.find? fun r => r.id == recipientId
  let template := s'.templates.find? fun t => t.id == templateId
  let remote :=
    match recipient, template with
    | some r, some t =>
        some (buildDbCertificate newId verificationUrl r t templateId nowDate)
    | _, _ => none
  (newId, s', remote)

/-- Interpreter for the remote pipeline of a single issuance: the `.then` and
`.catch` handlers in the source only call the remote client, `console` and
`alert`, never `set`, so the local store passes through unchanged for every
outcome. -/
def runSingleRemote (remote : Option DatabaseCertificate)
    (outcome : RemoteOutcome) (s : CertificateStore) :
    CertificateStore × List RemoteEvent :=
  match remote with
  | none => (s, [])
  | some row =>
    if outcome.insertOk then
      if outcome.pdfOk then
        (s, [.insertCertificate row, .uploadPdf row.certificate_code,
             .updatePdfUrl row.certificate_code])
      else
        (s, [.insertCertificate row, .uploadPdf row.certificate_code])
    else
      (s, [.insertCertificate row, .alertShown])

/-- The bulk remote loop `for (i = 0; i < n; i += 3) slice(i, i + 3)`, with
the loop counter as fuel (each iteration consumes at least one element). -/
def batchChunksGo : Nat → List Certificate → List (List Certificate)
  | 0, _ => []
  | _, [] => []
  | fuel + 1, l => l.take 3 :: batchChunksGo fuel (l.drop 3)

/-- The batches of size 3 (`batchSize = 3`) processed sequentially by
`generateBulkCertificates`. -/
def batchChunks (l : List Certificate) : List (List Certificate) :=
  batchChunksGo l.length l

/-- Store action `generateBulkCertificates(recipientIds, templateId)`: allocate one id per
recipient in array order, append all new certificates locally in one `set`,
then describe the remote persistence as the ordered list of batches the async
loop awaits one after another.  Returns the ids, the new local state, and the
batch list. -/
def generateBulkCertificates (freshIds : Nat → String) (origin nowIso : String)
    (recipientIds : List String) (templateId : String) (s : CertificateStore) :
    List String × CertificateStore × List (List Certificate) :=
  let newCertificates := recipientIds.enum.map fun p =>
    mkCertificateRecord (freshIds p.1) p.2 templateId origin nowIso
  let s' := { s with certificates := s.certificates ++ newCertificates }
  (newCertificates.map Certificate.id, s', batchChunks newCertificates)

/-- The per-collection transformer of `addCertificatesToCollection`: the
matching collection receives, appended, the candidates whose id is not already
present among its members. -/
def addToCollection (collectionId : String)
    (certificatesToAdd : List Certificate)
    (collection : CertificateCollection) : CertificateCollection :=
  if collection.id = collectionId then
    { collection with certificates := collection.certificates ++
        certificatesToAdd.filter fun cert =>
          ! collection.certificates.any fun existing => existing.id == cert.id }
  else collection

/-- Store action `addCertificatesToCollection(collectionId, certificateIds)`: look up the
requested certificates in the global container, then apply the per-collection
transformer to every collection. -/
def addCertificatesToCollection (collectionId : String)
    (certificateIds : List String) (s : CertificateStore) : CertificateStore :=
  let certificatesToAdd := s.certificates.filter fun cert =>
    certificateIds.contains cert.id
  { s with collections :=
      s.collections.map (addToCollection collectionId certificatesToAdd) }

/-- The parsed shape consumed by `importData`.  The JSON text itself is
produced and parsed by the platform library, so the payload is embedded
structurally; a key absent from the parsed object is `none`. -/
structure ExportedData where
  templates : Option (List Template)
  recipients : Option (List Recipient)
  certificates : Option (List Certificate)
  collections : Option (List CertificateCollection)
deriving DecidableEq

/-- Store action `exportData()`: serialize the four containers (all keys present). -/
def exportData (s : CertificateStore) : ExportedData :=
  { templates := some s.templates,
    recipients := some s.recipients,
    certificates := some s.certificates,
    collections := some s.collections }

/-- Store action `importData(jsonData)`: `none` stands for an input on which `JSON.parse`
throws — the catch only logs, leaving the state unchanged.  On success each
missing key falls back to the empty container (`data.templates || []`), and
`currentTemplateId` is recomputed as `data.templates?.[0]?.id || null`. -/
def importData (parsed : Option ExportedData) (s : CertificateStore) :
    CertificateStore :=
  match parsed with
  | none => s
  | some data =>
    { templates := data.templates.getD [],
      recipients := data.recipients.getD [],
      certificates := data.certificates.getD [],
      collections := data.collections.getD [],
      currentTemplateId :=
        jsStringOrNull ((data.templates.getD []).head?.map Template.id) }

/-- Result of one attempt's create (`POST`) request in `uploadCertificatePDF`:
2xx, a 409 conflict, or any other failure (non-ok status or network error). -/
inductive CreateResult
  | ok
  | conflict
  | failed
deriving DecidableEq

/-- Result of the `PUT` retry request issued on a 409 conflict. -/
inductive UpdateResult
  | ok
  | failed
deriving DecidableEq

/-- The externally chosen outcome of one upload attempt; `update` is only
consulted when `create` is a conflict. -/
structure UploadAttemptOutcome where
  create : CreateResult
  update : UpdateResult
deriving DecidableEq

/-- Observable requests and sleeps of `uploadCertificatePDF`. -/
inductive UploadEvent
  | request (method : String) (url : String)
  | sleep (ms : Nat)
deriving DecidableEq

def MAX_RETRIES : Nat := 3

def RETRY_DELAY : Nat := 1000

def BUCKET_NAME : String := "certificates"

/-- The object key URL targeted by both the `POST` create and the `PUT`
update: `{supabaseUrl}/storage/v1/object/{bucket}/{certificateCode}.pdf`. -/
def objectUrl (supabaseUrl certificateCode : String) : String :=
  supabaseUrl ++ "/storage/v1/object/" ++ BUCKET_NAME ++ "/" ++
    certificateCode ++ ".pdf"

/-- The public URL returned on success. -/
def publicObjectUrl (supabaseUrl certificateCode : String) : String :=
  supabaseUrl ++ "/storage/v1/object/public/" ++ BUCKET_NAME ++ "/" ++
    certificateCode ++ ".pdf"

/-- The requests issued within one attempt: always the `POST`; on a 409 also
the `PUT` to the same key. -/
def attemptEvents (a : UploadAttemptOutcome) (url : String) : List UploadEvent :=
  match a.create with
  | .ok => [.request "POST" url]
  | .conflict => [.request "POST" url, .request "PUT" url]
  | .failed => [.request "POST" url]

/-- Whether one attempt reaches the `return publicUrl` line: the create
succeeded, or it conflicted and the update succeeded. -/
def attemptSucceeds (a : UploadAttemptOutcome) : Bool :=
  match a.create with
  | .ok => true
  | .conflict =>
    match a.update with
    | .ok => true
    | .failed => false
  | .failed => false

/-- The retry loop of `uploadCertificatePDF` from a given attempt number, with
the remaining loop iterations as fuel.  A failed attempt at
`attempt = MAX_RETRIES` raises the terminal error; otherwise the catch sleeps
`RETRY_DELAY * attempt` and retries.  Fuel exhaustion mirrors the unreachable
throw after the loop. -/
def uploadFrom (o : Nat → UploadAttemptOutcome) (supabaseUrl certificateCode : String) :
    Nat → Nat → List UploadEvent × Except String String
  | _, 0 => ([], .error "Unexpected error in uploadCertificatePDF")
  | attempt, fuel + 1 =>
    let url := objectUrl supabaseUrl certificateCode
    let evs := attemptEvents (o attempt) url
    if attemptSucceeds (o attempt) then
      (evs, .ok (publicObjectUrl supabaseUrl certificateCode))
    else if attempt = MAX_RETRIES then
      (evs, .error "Failed to upload certificate after 3 attempts")
    else
      let rest := uploadFrom o supabaseUrl certificateCode (attempt + 1) fuel
      (evs ++ [.sleep (RETRY_DELAY * attempt)] ++ rest.1, rest.2)

/-- Function `uploadCertificatePDF(certificateCode, pdfBlob)` over an externally chosen
outcome per attempt: attempts run from 1 up to `MAX_RETRIES`. -/
def uploadCertificatePDF (o : Nat → UploadAttemptOutcome)
    (supabaseUrl certificateCode : String) :
    List UploadEvent × Except String String :=
  uploadFrom o supabaseUrl certificateCode 1 MAX_RETRIES

/-- A store whose single template has the empty string as id (reachable via
`importData`, whose payloads are not validated). -/
def roundtripCexStore : CertificateStore :=
  ⟨[⟨"", "n", "u", []⟩], [], [], [], some ""⟩

/-- A store whose current template `"x"` is followed by a template with the
empty string as id. -/
def deleteTemplateCexStore : CertificateStore :=
  ⟨[⟨"x", "a", "ua", []⟩, ⟨"", "b", "ub", []⟩], [], [], [], some "x"⟩

/-- A store whose current template `"x"` is followed by template `"y"`. -/
def deleteTemplateWitStore : CertificateStore :=
  ⟨[⟨"x", "a", "ua", []⟩, ⟨"y", "b", "ub", []⟩], [], [], [], some "x"⟩

/-- Mapping a function that fixes every element of a list is the identity. -/
theorem list_map_eq_self {α : Type} (f : α → α) (l : List α)
    (h : ∀ a ∈ l, f a = a) : l.map f = l := by
  induction l with
  | nil => rfl
  | cons a l ih =>
    simp only [List.map_cons, h a (List.mem_cons_self a l)]
    rw [ih fun x hx => h x (List.mem_cons_of_mem a hx)]

/-- The remote pipeline of a single issuance never touches the local store,
whatever its outcome. -/
theorem runSingleRemote_state (rem : Option DatabaseCertificate)
    (o : RemoteOutcome) (s : CertificateStore) :
    (runSingleRemote rem o s).1 = s := by
  rcases o with ⟨i, p⟩
  cases rem <;> cases i <;> cases p <;> rfl

/-- C1: for every recipientId and templateId, `generateCertificate` returns
the allocated identifier, and synchronously after the call the local
certificates container holds a certificate whose id equals the returned
identifier with status `"published"`; the asynchronous remote pipeline leaves
the local store unchanged under every outcome, so this holds regardless of the
remote result. -/
theorem generateCertificate_publishes_locally
    (newId origin nowIso nowDate recipientId templateId : String)
    (s : CertificateStore) (outcome : RemoteOutcome) :
    let r := generateCertificate newId origin nowIso nowDate recipientId templateId s
    r.1 = newId ∧
    (runSingleRemote r.2.2 outcome r.2.1).1 = r.2.1 ∧
    ∃ c ∈ r.2.1.certificates, c.id = newId ∧ c.status = "published" := by
  intro r
  refine ⟨rfl, runSingleRemote_state _ _ _, ?_⟩
  refine ⟨mkCertificateRecord newId recipientId templateId origin nowIso, ?_, rfl, rfl⟩
  show _ ∈ s.certificates ++ [mkCertificateRecord newId recipientId templateId origin nowIso]
  exact List.mem_append_right _ (List.mem_singleton.mpr rfl)

/-- C8: the certificate appended by `generateCertificate` under verification
origin `origin` has `verificationUrl = origin ++ "/verify/" ++ id` for its own
id (equal to the returned identifier) and a `qrCodeUrl` identical to its
`verificationUrl`. -/
theorem generateCertificate_verification_urls
    (newId origin nowIso nowDate recipientId templateId : String)
    (s : CertificateStore) :
    ∃ c : Certificate,
      (generateCertificate newId origin nowIso nowDate recipientId templateId s).2.1.certificates
        = s.certificates ++ [c] ∧
      c.id = (generateCertificate newId origin nowIso nowDate recipientId templateId s).1 ∧
      c.verificationUrl = origin ++ "/verify/" ++ c.id ∧
      c.qrCodeUrl = c.verificationUrl :=
  ⟨mkCertificateRecord newId recipientId templateId origin nowIso, rfl, rfl, rfl, rfl⟩

/-- C4: `deleteRecipient(id)` removes exactly the certificates whose
`recipientId` equals `id` and exactly the recipients whose id equals `id`;
templates, collections (and the current template) are unchanged. -/
theorem deleteRecipient_cascade (id : String) (s : CertificateStore) :
    (∀ c : Certificate,
      c ∈ (deleteRecipient id s).certificates ↔
        c ∈ s.certificates ∧ c.recipientId ≠ id) ∧
    (∀ r : Recipient,
      r ∈ (deleteRecipient id s).recipients ↔ r ∈ s.recipients ∧ r.id ≠ id) ∧
    (deleteRecipient id s).templates = s.templates ∧
    (deleteRecipient id s).collections = s.collections ∧
    (deleteRecipient id s).currentTemplateId = s.currentTemplateId := by
  refine ⟨fun c => ?_, fun r => ?_, rfl, rfl, rfl⟩ <;>
    simp [deleteRecipient, List.mem_filter]

/-- C9: `importData` on an input whose parse fails is an atomic no-op, and on
a successful parse each of the four containers whose key is absent from the
parsed object is replaced by the empty container. -/
theorem importData_error_and_missing_keys (s : CertificateStore)
    (d : ExportedData) :
    importData none s = s ∧
    (d.templates = none → (importData (some d) s).templates = []) ∧
    (d.recipients = none → (importData (some d) s).recipients = []) ∧
    (d.certificates = none → (importData (some d) s).certificates = []) ∧
    (d.collections = none → (importData (some d) s).collections = []) := by
  refine ⟨rfl, fun h => ?_, fun h => ?_, fun h => ?_, fun h => ?_⟩ <;>
    simp [importData, h]

/-- Witness for C9 at concrete inputs: a failed parse leaves the empty store
unchanged, and a parsed object missing the `templates` key yields an empty
templates container. -/
theorem importData_error_and_missing_keys_witness :
    importData none emptyStore = emptyStore ∧
    (importData (some ⟨none, some [], some [], some []⟩) emptyStore).templates
      = [] :=
  ⟨(importData_error_and_missing_keys emptyStore
      ⟨none, some [], some [], some []⟩).1,
   (importData_error_and_missing_keys emptyStore
      ⟨none, some [], some [], some []⟩).2.1 rfl⟩

/-- The first element kept by `filter` is the first element found by `find?`. -/
theorem filter_head_eq_find {α : Type} (p : α → Bool) (l : List α) :
    (l.filter p).head? = l.find? p := by
  induction l with
  | nil => rfl
  | cons a l ih =>
    cases h : p a <;> simp [List.filter_cons, List.find?_cons, h, ih]

/-- C5 is false as stated: for a store whose first template has the empty
string as id, the round trip sets `currentTemplateId` to `null` — JS
`data.templates?.[0]?.id || null` treats the empty string as falsy — not to
the id of the first element of the imported templates. -/
theorem importData_roundtrip_counterexample :
    roundtripCexStore.templates.head?.map Template.id = some "" ∧
    (importData (some (exportData roundtripCexStore)) emptyStore).currentTemplateId
      = none ∧
    (importData (some (exportData roundtripCexStore)) emptyStore).currentTemplateId
      ≠ some "" :=
  ⟨rfl, rfl, by decide⟩

/-- C5 (amended): importing the export of any store into the empty store
reproduces the four containers exactly; `currentTemplateId` is not
round-tripped but recomputed as the id of the first imported template, except
that an empty template list — or a first template whose id is the empty
string — yields `null`. -/
theorem exportData_importData_roundtrip (s : CertificateStore) :
    (importData (some (exportData s)) emptyStore).templates = s.templates ∧
    (importData (some (exportData s)) emptyStore).recipients = s.recipients ∧
    (importData (some (exportData s)) emptyStore).certificates = s.certificates ∧
    (importData (some (exportData s)) emptyStore).collections = s.collections ∧
    (importData (some (exportData s)) emptyStore).currentTemplateId =
      match s.templates.head? with
      | none => none
      | some t => if t.id = "" then none else some t.id := by
  refine ⟨rfl, rfl, rfl, rfl, ?_⟩
  obtain ⟨ts, rs, cs, cols, cur⟩ := s
  cases ts <;> rfl

/-- C10 is false as stated: deleting the current template `"x"` when the
first remaining template has the empty string as id sets `currentTemplateId`
to `null` (JS `find(...)?.id || null`), not to the id of the first remaining
template. -/
theorem deleteTemplate_counterexample :
    (deleteTemplate "x" deleteTemplateCexStore).currentTemplateId = none ∧
    (deleteTemplate "x" deleteTemplateCexStore).templates.head?.map Template.id
      = some "" :=
  ⟨rfl, rfl⟩

/-- C10 (amended): `deleteTemplate(id)` removes exactly the templates whose id
equals `id` and leaves recipients, certificates and collections unchanged;
`currentTemplateId` is unchanged when it differs from `id`, and otherwise
becomes the id of the first remaining template — except that the empty string
as that id yields `null`, as does an empty remainder. -/
theorem deleteTemplate_semantics (id : String) (s : CertificateStore) :
    (∀ t : Template,
      t ∈ (deleteTemplate id s).templates ↔ t ∈ s.templates ∧ t.id ≠ id) ∧
    (deleteTemplate id s).recipients = s.recipients ∧
    (deleteTemplate id s).certificates = s.certificates ∧
    (deleteTemplate id s).collections = s.collections ∧
    (s.currentTemplateId ≠ some id →
      (deleteTemplate id s).currentTemplateId = s.currentTemplateId) ∧
    (s.currentTemplateId = some id →
      (deleteTemplate id s).currentTemplateId =
        match (deleteTemplate id s).templates.head? with
        | none => none
        | some t => if t.id = "" then none else some t.id) := by
  refine ⟨fun t => ?_, rfl, rfl, rfl, fun h => ?_, fun h => ?_⟩
  · simp [deleteTemplate, List.mem_filter]
  · simp [deleteTemplate, h]
  · show (if s.currentTemplateId = some id then
        jsStringOrNull ((s.templates.find? fun t => t.id != id).map Template.id)
      else s.currentTemplateId) =
      match (s.templates.filter fun t => t.id != id).head? with
      | none => none
      | some t => if t.id = "" then none else some t.id
    rw [if_pos h, ← filter_head_eq_find]
    cases (s.templates.filter fun t => t.id != id).head? <;> rfl

/-- Witness for C10 at a concrete input: deleting the current template `"x"`
promotes the next remaining template `"y"`. -/
theorem deleteTemplate_semantics_witness :
    (deleteTemplate "x" deleteTemplateWitStore).currentTemplateId = some "y" :=
  ((deleteTemplate_semantics "x" deleteTemplateWitStore).2.2.2.2.2 rfl).trans rfl

/-- C3: `updateTemplate` and `updateRecipient` replace a matching entity by
exactly the payload's fields plus the original id (no partial merge);
`updateCertificate` merges the partial updates into the matching certificate
field by field; and each of the three is a no-op on the whole store when no
stored entity carries the given id. -/
theorem update_actions_semantics (id : String) (tp : TemplatePayload)
    (rp : RecipientPayload) (cu : CertificateUpdates) (s : CertificateStore) :
    (∀ i : Nat, (updateTemplate id tp s).templates[i]? =
      (s.templates[i]?).map fun t =>
        if t.id = id then ⟨id, tp.name, tp.imageUrl, tp.fields⟩ else t) ∧
    (∀ i : Nat, (updateRecipient id rp s).recipients[i]? =
      (s.recipients[i]?).map fun r =>
        if r.id = id then
          ⟨id, rp.name, rp.email, rp.course, rp.customFields, rp.issueDate⟩
        else r) ∧
    (∀ i : Nat, (updateCertificate id cu s).certificates[i]? =
      (s.certificates[i]?).map fun c =>
        if c.id = id then spreadCertificate c cu else c) ∧
    (∀ c : Certificate, spreadCertificate c cu =
      ⟨cu.id.getD c.id, cu.recipientId.getD c.recipientId,
       cu.templateId.getD c.templateId, cu.qrCodeUrl.getD c.qrCodeUrl,
       cu.issueDate.getD c.issueDate, cu.verificationUrl.getD c.verificationUrl,
       cu.status.getD c.status⟩) ∧
    ((∀ t ∈ s.templates, t.id ≠ id) → updateTemplate id tp s = s) ∧
    ((∀ r ∈ s.recipients, r.id ≠ id) → updateRecipient id rp s = s) ∧
    ((∀ c ∈ s.certificates, c.id ≠ id) → updateCertificate id cu s = s) := by
  refine ⟨fun i => ?_, fun i => ?_, fun i => ?_, fun c => rfl,
    fun h => ?_, fun h => ?_, fun h => ?_⟩
  · simp [updateTemplate]
  · simp [updateRecipient]
  · simp [updateCertificate]
  · unfold updateTemplate
    rw [list_map_eq_self _ _ fun t ht => if_neg (h t ht)]
  · unfold updateRecipient
    rw [list_map_eq_self _ _ fun r hr => if_neg (h r hr)]
  · unfold updateCertificate
    rw [list_map_eq_self _ _ fun c hc => if_neg (h c hc)]

/-- Witness for C3 at a concrete input: updating an absent template id leaves
the store unchanged. -/
theorem update_actions_semantics_witness :
    updateTemplate "z" ⟨"n", "u", []⟩ ⟨[⟨"a", "m", "v", []⟩], [], [], [], none⟩
      = ⟨[⟨"a", "m", "v", []⟩], [], [], [], none⟩ :=
  (update_actions_semantics "z" ⟨"n", "u", []⟩ ⟨"", none, none, [], ""⟩
      ⟨none, none, none, none, none, none, none⟩
      ⟨[⟨"a", "m", "v", []⟩], [], [], [], none⟩).2.2.2.2.1 (by decide)

/-- After one append pass every candidate id already occurs among the
members, so a second dedup filter against the extended membership keeps
nothing. -/
theorem filter_not_any_after_append (existing toAdd : List Certificate) :
    (toAdd.filter fun cert =>
      ! (existing ++ toAdd.filter fun cert2 =>
          ! existing.any fun e => e.id == cert2.id).any fun e => e.id == cert.id)
      = [] := by
  apply List.filter_eq_nil_iff.mpr
  intro cert hc hp
  have hp' : (! (existing ++ toAdd.filter fun cert2 =>
      ! existing.any fun e => e.id == cert2.id).any fun e => e.id == cert.id)
      = true := hp
  have hany : (existing ++ toAdd.filter fun cert2 =>
      ! existing.any fun e => e.id == cert2.id).any (fun e => e.id == cert.id)
      = true := by
    rw [List.any_append]
    cases hex : existing.any fun e => e.id == cert.id with
    | true => rfl
    | false =>
      have hmem : cert ∈ toAdd.filter fun cert2 =>
          ! existing.any fun e => e.id == cert2.id :=
        List.mem_filter.mpr ⟨hc, by
          show (! existing.any fun e => e.id == cert.id) = true
          rw [hex]
          rfl⟩
      have hB : (toAdd.filter fun cert2 =>
          ! existing.any fun e => e.id == cert2.id).any
            (fun e => e.id == cert.id) = true :=
        List.any_eq_true.mpr ⟨cert, hmem, beq_self_eq_true cert.id⟩
      rw [hB]
      cases existing.any fun e => e.id == cert.id <;> rfl
  rw [hany] at hp'
  simp at hp'

/-- Applying the per-collection add transformer twice with the same
candidates equals applying it once. -/
theorem addToCollection_idem (collectionId : String) (toAdd : List Certificate)
    (col : CertificateCollection) :
    addToCollection collectionId toAdd (addToCollection collectionId toAdd col)
      = addToCollection collectionId toAdd col := by
  by_cases hid : col.id = collectionId
  · have h1 : addToCollection collectionId toAdd col =
        { col with certificates := col.certificates ++
            toAdd.filter fun cert =>
              ! col.certificates.any fun existing => existing.id == cert.id } := by
      rw [addToCollection, if_pos hid]
    rw [h1, addToCollection]
    dsimp only
    rw [if_pos hid, filter_not_any_after_append, List.append_nil]
  · simp [addToCollection, hid]

/-- C6: adding the same list of certificate ids to a collection twice yields
exactly the same store as adding it once — the add deduplicates by certificate
id against the collection's existing members. -/
theorem addCertificatesToCollection_idempotent (collectionId : String)
    (certificateIds : List String) (s : CertificateStore) :
    addCertificatesToCollection collectionId certificateIds
        (addCertificatesToCollection collectionId certificateIds s) =
      addCertificatesToCollection collectionId certificateIds s := by
  unfold addCertificatesToCollection
  dsimp only
  congr 1
  rw [List.map_map]
  exact List.map_congr_left fun col _ => addToCollection_idem collectionId _ col

/-- C2: with 7 recipient ids, `generateBulkCertificates` synchronously appends
all 7 new published certificates to the local container and returns their 7
identifiers; the remote persistence then processes exactly those certificates,
in array order, in consecutive batches of sizes 3, 3, 1 (the async loop awaits
each batch before starting the next, which the ordered batch list models). -/
theorem generateBulkCertificates_seven (freshIds : Nat → String)
    (origin nowIso : String) (recipientIds : List String) (templateId : String)
    (s : CertificateStore) (h : recipientIds.length = 7) :
    let r := generateBulkCertificates freshIds origin nowIso recipientIds
      templateId s
    r.1.length = 7 ∧
    r.2.1.certificates = s.certificates ++ r.2.2.flatten ∧
    r.1 = r.2.2.flatten.map Certificate.id ∧
    (∀ c ∈ r.2.2.flatten, c.status = "published") ∧
    r.2.2.map List.length = [3, 3, 1] := by
  intro r
  obtain ⟨a1, l1, rfl⟩ := List.exists_of_length_succ _ h
  have h1 : l1.length = 6 := by simp at h; omega
  obtain ⟨a2, l2, rfl⟩ := List.exists_of_length_succ _ h1
  have h2 : l2.length = 5 := by simp at h1; omega
  obtain ⟨a3, l3, rfl⟩ := List.exists_of_length_succ _ h2
  have h3 : l3.length = 4 := by simp at h2; omega
  obtain ⟨a4, l4, rfl⟩ := List.exists_of_length_succ _ h3
  have h4 : l4.length = 3 := by simp at h3; omega
  obtain ⟨a5, l5, rfl⟩ := List.exists_of_length_succ _ h4
  have h5 : l5.length = 2 := by simp at h4; omega
  obtain ⟨a6, l6, rfl⟩ := List.exists_of_length_succ _ h5
  have h6 : l6.length = 1 := by simp at h5; omega
  obtain ⟨a7, l7, rfl⟩ := List.exists_of_length_succ _ h6
  obtain rfl : l7 = [] := by simpa using h6
  refine ⟨rfl, rfl, rfl, ?_, rfl⟩
  intro c hc
  have hc2 : c ∈ ([a1, a2, a3, a4, a5, a6, a7].enum).map fun p =>
      mkCertificateRecord (freshIds p.1) p.2 templateId origin nowIso := hc
  rw [List.mem_map] at hc2
  obtain ⟨p, _, rfl⟩ := hc2
  rfl

/-- Witness for C2 at concrete inputs: 7 recipients produce remote batches of
sizes 3, 3 and 1. -/
theorem generateBulkCertificates_seven_witness :
    (generateBulkCertificates (fun _ => "n") "https://x.test" "d"
        ["r1", "r2", "r3", "r4", "r5", "r6", "r7"] "t" emptyStore).2.2.map
      List.length = [3, 3, 1] :=
  (generateBulkCertificates_seven (fun _ => "n") "https://x.test" "d"
      ["r1", "r2", "r3", "r4", "r5", "r6", "r7"] "t" emptyStore rfl).2.2.2.2

/-- C7: the upload retry policy.  A create answered with 409 retries as a
`PUT` update to the same object key within the same attempt (and succeeds,
returning the public URL, when that update succeeds); a failed attempt at
numbers 1 or 2 is followed by a sleep of `1000 * attempt` milliseconds and a
full retry; the third failed attempt raises the terminal error with no further
sleep; any successful attempt returns the public URL built from the bucket and
the `.pdf` key. -/
theorem uploadCertificatePDF_retry_policy (o : Nat → UploadAttemptOutcome)
    (u cc : String) :
    ((o 1).create = .conflict → (o 1).update = .ok →
      uploadCertificatePDF o u cc =
        ([.request "POST" (objectUrl u cc), .request "PUT" (objectUrl u cc)],
         .ok (publicObjectUrl u cc))) ∧
    (attemptSucceeds (o 1) = true →
      uploadCertificatePDF o u cc =
        (attemptEvents (o 1) (objectUrl u cc), .ok (publicObjectUrl u cc))) ∧
    (attemptSucceeds (o 1) = false → attemptSucceeds (o 2) = true →
      uploadCertificatePDF o u cc =
        (attemptEvents (o 1) (objectUrl u cc) ++ [.sleep 1000] ++
           attemptEvents (o 2) (objectUrl u cc),
         .ok (publicObjectUrl u cc))) ∧
    (attemptSucceeds (o 1) = false → attemptSucceeds (o 2) = false →
      attemptSucceeds (o 3) = true →
      uploadCertificatePDF o u cc =
        (attemptEvents (o 1) (objectUrl u cc) ++ [.sleep 1000] ++
           attemptEvents (o 2) (objectUrl u cc) ++ [.sleep 2000] ++
           attemptEvents (o 3) (objectUrl u cc),
         .ok (publicObjectUrl u cc))) ∧
    (attemptSucceeds (o 1) = false → attemptSucceeds (o 2) = false →
      attemptSucceeds (o 3) = false →
      uploadCertificatePDF o u cc =
        (attemptEvents (o 1) (objectUrl u cc) ++ [.sleep 1000] ++
           attemptEvents (o 2) (objectUrl u cc) ++ [.sleep 2000] ++
           attemptEvents (o 3) (objectUrl u cc),
         .error "Failed to upload certificate after 3 attempts")) ∧
    (∀ k : Nat, (o k).create = .conflict →
      attemptEvents (o k) (objectUrl u cc) =
        [.request "POST" (objectUrl u cc), .request "PUT" (objectUrl u cc)]) := by
  refine ⟨fun hc hu => ?_, fun h1 => ?_, fun h1 h2 => ?_, fun h1 h2 h3 => ?_,
    fun h1 h2 h3 => ?_, fun k hk => ?_⟩
  · have hs : attemptSucceeds (o 1) = true := by
      rw [attemptSucceeds, hc, hu]
    have he : attemptEvents (o 1) (objectUrl u cc) =
        [.request "POST" (objectUrl u cc), .request "PUT" (objectUrl u cc)] := by
      rw [attemptEvents, hc]
    simp [uploadCertificatePDF, uploadFrom, MAX_RETRIES, hs, he]
  · simp [uploadCertificatePDF, uploadFrom, MAX_RETRIES, h1]
  · simp [uploadCertificatePDF, uploadFrom, MAX_RETRIES, RETRY_DELAY, h1, h2]
  · simp [uploadCertificatePDF, uploadFrom, MAX_RETRIES, RETRY_DELAY, h1, h2, h3]
  · simp [uploadCertificatePDF, uploadFrom, MAX_RETRIES, RETRY_DELAY, h1, h2, h3]
  · rw [attemptEvents, hk]

/-- Witness for C7 at a concrete outcome trace: the first attempt's create
receives a 409 and the update succeeds, so the call returns the public URL
after a `POST` and a `PUT` to the same key. -/
theorem uploadCertificatePDF_retry_policy_witness :
    ((fun k => if k = 1 then UploadAttemptOutcome.mk .conflict .ok
        else UploadAttemptOutcome.mk .ok .ok) 1).create = .conflict ∧
    uploadCertificatePDF
        (fun k => if k = 1 then UploadAttemptOutcome.mk .conflict .ok
          else UploadAttemptOutcome.mk .ok .ok) "https://sb.test" "abc" =
      ([.request "POST" (objectUrl "https://sb.test" "abc"),
        .request "PUT" (objectUrl "https://sb.test" "abc")],
       .ok (publicObjectUrl "https://sb.test" "abc")) :=
  ⟨rfl,
   (uploadCertificatePDF_retry_policy
      (fun k => if k = 1 then UploadAttemptOutcome.mk .conflict .ok
        else UploadAttemptOutcome.mk .ok .ok) "https://sb.test" "abc").1 rfl rfl⟩

end Verificador
